import Mathlib

/-!
A shallow embedding of the type/length resolution layer of the loci OpenFlow
object model (`Modules/loci/src/of_type_maps.c`), together with proofs of the
behavioural properties claimed of it.

The wire buffer, the version-indexed translation tables, the experimenter
vendor identifiers and the generated per-field setters are external
collaborators of that file; they are modelled from their specified interfaces
(byte store with big-endian fixed-width accessors, static bidirectional maps,
hard-coded vendor constants).  Every function of `of_type_maps.c` that the
properties mention is translated directly from the C source; a fatal `ASSERT`
is modelled by returning `none`.
-/

/-- A wire buffer, modelled as a total map from absolute byte offsets to byte
values.  Reads reduce stored values modulo 256 (bytes are `uint8_t`). -/
abbrev Buf := Nat → Nat

/-- Modelled from the spec: big-endian 16-bit read at an absolute offset
(`of_wire_buffer_u16_get` / `buf_u16_get` of the wire-buffer collaborator). -/
def buf_u16_get (b : Buf) (off : Nat) : Nat :=
  b off % 256 * 256 + b (off + 1) % 256

/-- Modelled from the spec: big-endian 16-bit write at an absolute offset
(`of_wire_buffer_u16_set` / `buf_u16_set`); the value is truncated to 16 bits
byte by byte. -/
def buf_u16_set (b : Buf) (off v : Nat) : Buf := fun i =>
  if i = off then v / 256 % 256
  else if i = off + 1 then v % 256
  else b i

/-- Modelled from the spec: big-endian 32-bit read at an absolute offset
(`of_wire_buffer_u32_get` / `buf_u32_get`). -/
def buf_u32_get (b : Buf) (off : Nat) : Nat :=
  b off % 256 * 16777216 + b (off + 1) % 256 * 65536 +
    b (off + 2) % 256 * 256 + b (off + 3) % 256

/-- Modelled from the spec: big-endian 32-bit write at an absolute offset
(`of_wire_buffer_u32_set` / `buf_u32_set`). -/
def buf_u32_set (b : Buf) (off v : Nat) : Buf := fun i =>
  if i = off then v / 16777216 % 256
  else if i = off + 1 then v / 65536 % 256
  else if i = off + 2 then v / 256 % 256
  else if i = off + 3 then v % 256
  else b i

/-- Modelled from the spec: the reserved generic EXPERIMENTER wire type
sentinel shared by the TLV16 families (`OF_EXPERIMENTER_TYPE`, `0xffff`). -/
def OF_EXPERIMENTER_TYPE : Nat := 0xffff

/-- Modelled from the spec: vendor identifier of the first known vendor
(`OF_EXPERIMENTER_ID_BSN`). -/
def OF_EXPERIMENTER_ID_BSN : Nat := 0x005c16c7

/-- Modelled from the spec: vendor identifier of the second known vendor
(`OF_EXPERIMENTER_ID_NICIRA`). -/
def OF_EXPERIMENTER_ID_NICIRA : Nat := 0x00002320

/-- Modelled from the spec: the success return code (`OF_ERROR_NONE`). -/
def OF_ERROR_NONE : Int := 0

/-- Modelled from the spec: protocol versions form a small ordinal
enumeration; version 1.2 is the third ordinal (`OF_VERSION_1_2`). -/
def OF_VERSION_1_2 : Nat := 3

/-- Internal object identifiers (`of_object_id_t`): the identifiers named in
`of_type_maps.c`, plus representative ordinary members of each family. -/
inductive of_object_id_t where
  | OF_OBJECT_INVALID
  | OF_ACTION_OUTPUT
  | OF_ACTION_EXPERIMENTER
  | OF_ACTION_BSN_MIRROR
  | OF_ACTION_BSN_SET_TUNNEL_DST
  | OF_ACTION_NICIRA_DEC_TTL
  | OF_ACTION_ID_OUTPUT
  | OF_ACTION_ID_EXPERIMENTER
  | OF_ACTION_ID_BSN_MIRROR
  | OF_ACTION_ID_BSN_SET_TUNNEL_DST
  | OF_ACTION_ID_NICIRA_DEC_TTL
  | OF_INSTRUCTION_EXPERIMENTER
  | OF_QUEUE_PROP_EXPERIMENTER
  | OF_TABLE_FEATURE_PROP_EXPERIMENTER
  | OF_METER_BAND_DROP
  | OF_METER_BAND_EXPERIMENTER
  | OF_HELLO_ELEM_VERSIONBITMAP
  | OF_METER_STATS
  | OF_OXM_IN_PORT
deriving DecidableEq

/-- The parent data an accessor of `of_type_maps.c` reads through
`obj->parent`: the parent's object identifier and its `length` field. -/
structure parent_t where
  object_id : of_object_id_t
  length : Nat
deriving DecidableEq

/-- A wire object handle (`of_object_t`): protocol version, object
identifier, the object's absolute offset inside the shared buffer, its byte
length, an optional parent link, and the attached wire buffer (`none` models
a NULL `wbuf`). -/
structure of_object_t where
  version : Nat
  object_id : of_object_id_t
  obj_offset : Nat
  length : Nat
  parent : Option parent_t
  wbuf : Option Buf

/-- Replace the attached buffer of a handle (the C functions mutate the
shared buffer in place; the embedding threads the updated buffer instead). -/
def withBuf (obj : of_object_t) (b : Buf) : of_object_t :=
  { obj with wbuf := some b }

/-- The absolute buffer offset of a field at a family-relative offset
(`OF_OBJECT_ABSOLUTE_OFFSET`): the handle's own offset plus the relative
offset. -/
def OF_OBJECT_ABSOLUTE_OFFSET (obj : of_object_t) (off : Nat) : Nat :=
  obj.obj_offset + off

/-- Modelled from the spec: the static, version-indexed translation tables
and generated constants that `of_type_maps.c` consumes but does not define
(`of_object_to_type_map`, the per-family `*_type_to_id` reverse maps and
`*_ITEM_COUNT` bounds, the OXM maps, and the per-object fixed header
lengths).  They are supplied fully populated and never mutated, so the
embedding passes them as an explicit value. -/
structure loci_ext where
  of_object_to_type_map : Nat → of_object_id_t → Int
  of_action_type_to_id : Nat → Nat → of_object_id_t
  of_action_id_type_to_id : Nat → Nat → of_object_id_t
  of_instruction_type_to_id : Nat → Nat → of_object_id_t
  of_queue_prop_type_to_id : Nat → Nat → of_object_id_t
  of_table_feature_prop_type_to_id : Nat → Nat → of_object_id_t
  of_meter_band_type_to_id : Nat → Nat → of_object_id_t
  of_hello_elem_type_to_id : Nat → Nat → of_object_id_t
  OF_ACTION_ITEM_COUNT : Nat
  OF_ACTION_ID_ITEM_COUNT : Nat
  OF_INSTRUCTION_ITEM_COUNT : Nat
  OF_QUEUE_PROP_ITEM_COUNT : Nat
  OF_TABLE_FEATURE_PROP_ITEM_COUNT : Nat
  OF_METER_BAND_ITEM_COUNT : Nat
  OF_HELLO_ELEM_ITEM_COUNT : Nat
  of_oxm_to_object_id : Nat → Nat → of_object_id_t
  of_object_to_wire_type : of_object_id_t → Nat → Int
  OF_OXM_VALID_ID : of_object_id_t → Bool
  OF_OBJECT_FIXED_LENGTH : of_object_id_t → Nat

/-- Offset of the 16-bit type field of a TLV16 header
(`TLV16_WIRE_TYPE_OFFSET`). -/
def TLV16_WIRE_TYPE_OFFSET : Nat := 0

/-- Offset of the 16-bit length field of a TLV16 header
(`TLV16_WIRE_LENGTH_OFFSET`). -/
def TLV16_WIRE_LENGTH_OFFSET : Nat := 2

/-- Offset of the 32-bit experimenter (vendor) identifier inside an
experimenter action (`OF_ACTION_EXPERIMENTER_ID_OFFSET`). -/
def OF_ACTION_EXPERIMENTER_ID_OFFSET : Nat := 4

/-- Offset of the vendor sub-type field inside an experimenter action
(`OF_ACTION_EXPERIMENTER_SUBTYPE_OFFSET`). -/
def OF_ACTION_EXPERIMENTER_SUBTYPE_OFFSET : Nat := 8

/-- Read the 16-bit wire type field of a TLV16 object
(`of_tlv16_wire_type_get`; the C version dereferences the buffer without an
explicit ASSERT, so a missing buffer is modelled as `none`). -/
def of_tlv16_wire_type_get (obj : of_object_t) : Option Nat :=
  match obj.wbuf with
  | none => none
  | some wbuf =>
    some (buf_u16_get wbuf (OF_OBJECT_ABSOLUTE_OFFSET obj TLV16_WIRE_TYPE_OFFSET))

/-- Write the vendor identifier and sub-type fields for a known
vendor-extension identifier (`of_extension_object_id_set`); identifiers with
no registered entry fall through the `default` branch and leave the buffer
untouched. -/
def of_extension_object_id_set (obj : of_object_t) (id : of_object_id_t) : Option Buf :=
  match obj.wbuf with
  | none => none
  | some b =>
    let base := obj.obj_offset
    some (match id with
      | .OF_ACTION_BSN_MIRROR | .OF_ACTION_ID_BSN_MIRROR =>
        buf_u32_set
          (buf_u32_set b (base + OF_ACTION_EXPERIMENTER_ID_OFFSET) OF_EXPERIMENTER_ID_BSN)
          (base + OF_ACTION_EXPERIMENTER_SUBTYPE_OFFSET) 1
      | .OF_ACTION_BSN_SET_TUNNEL_DST | .OF_ACTION_ID_BSN_SET_TUNNEL_DST =>
        buf_u32_set
          (buf_u32_set b (base + OF_ACTION_EXPERIMENTER_ID_OFFSET) OF_EXPERIMENTER_ID_BSN)
          (base + OF_ACTION_EXPERIMENTER_SUBTYPE_OFFSET) 2
      | .OF_ACTION_NICIRA_DEC_TTL | .OF_ACTION_ID_NICIRA_DEC_TTL =>
        buf_u16_set
          (buf_u32_set b (base + OF_ACTION_EXPERIMENTER_ID_OFFSET) OF_EXPERIMENTER_ID_NICIRA)
          (base + OF_ACTION_EXPERIMENTER_SUBTYPE_OFFSET) 18
      | _ => b)

/-- Set the wire type of a TLV16 object from an object identifier
(`of_tlv16_wire_object_id_set`): forward table lookup, fatal if the code is
negative, write the 16-bit code at offset 0, and delegate to the
experimenter encode path when the code is the EXPERIMENTER sentinel. -/
def of_tlv16_wire_object_id_set (ext : loci_ext) (obj : of_object_t)
    (id : of_object_id_t) : Option Buf :=
  match obj.wbuf with
  | none => none
  | some wbuf =>
    let wire_type := ext.of_object_to_type_map obj.version id
    if wire_type < 0 then none
    else
      let b1 := buf_u16_set wbuf (OF_OBJECT_ABSOLUTE_OFFSET obj TLV16_WIRE_TYPE_OFFSET)
        wire_type.toNat
      if wire_type = (OF_EXPERIMENTER_TYPE : Int) then
        of_extension_object_id_set (withBuf obj b1) id
      else some b1

/-- Resolve the identifier of an experimenter action from the vendor
identifier and sub-type fields (`extension_action_object_id_get`): defaults
to the generic experimenter identifier; BSN sub-types are 32-bit, Nicira
sub-types 16-bit. -/
def extension_action_object_id_get (obj : of_object_t) : Option of_object_id_t :=
  match obj.wbuf with
  | none => none
  | some b =>
    let base := obj.obj_offset
    let exp_id := buf_u32_get b (base + OF_ACTION_EXPERIMENTER_ID_OFFSET)
    some (if exp_id = OF_EXPERIMENTER_ID_BSN then
        let subtype := buf_u32_get b (base + OF_ACTION_EXPERIMENTER_SUBTYPE_OFFSET)
        if subtype = 1 then .OF_ACTION_BSN_MIRROR
        else if subtype = 2 then .OF_ACTION_BSN_SET_TUNNEL_DST
        else .OF_ACTION_EXPERIMENTER
      else if exp_id = OF_EXPERIMENTER_ID_NICIRA then
        let subtype := buf_u16_get b (base + OF_ACTION_EXPERIMENTER_SUBTYPE_OFFSET)
        if subtype = 18 then .OF_ACTION_NICIRA_DEC_TTL
        else .OF_ACTION_EXPERIMENTER
      else .OF_ACTION_EXPERIMENTER)

/-- Resolve the identifier of an experimenter action-id object
(`extension_action_id_object_id_get`); same layout as the action variant but
producing the action-id identifiers. -/
def extension_action_id_object_id_get (obj : of_object_t) : Option of_object_id_t :=
  match obj.wbuf with
  | none => none
  | some b =>
    let base := obj.obj_offset
    let exp_id := buf_u32_get b (base + OF_ACTION_EXPERIMENTER_ID_OFFSET)
    some (if exp_id = OF_EXPERIMENTER_ID_BSN then
        let subtype := buf_u32_get b (base + OF_ACTION_EXPERIMENTER_SUBTYPE_OFFSET)
        if subtype = 1 then .OF_ACTION_ID_BSN_MIRROR
        else if subtype = 2 then .OF_ACTION_ID_BSN_SET_TUNNEL_DST
        else .OF_ACTION_ID_EXPERIMENTER
      else if exp_id = OF_EXPERIMENTER_ID_NICIRA then
        let subtype := buf_u16_get b (base + OF_ACTION_EXPERIMENTER_SUBTYPE_OFFSET)
        if subtype = 18 then .OF_ACTION_ID_NICIRA_DEC_TTL
        else .OF_ACTION_ID_EXPERIMENTER
      else .OF_ACTION_ID_EXPERIMENTER)

/-- Get the object identifier of an action from the wire
(`of_action_wire_object_id_get`): EXPERIMENTER codes go to the extension
decoder; other codes must lie below `OF_ACTION_ITEM_COUNT` (a `uint16` read
is never negative) and must resolve to a non-invalid identifier. -/
def of_action_wire_object_id_get (ext : loci_ext) (obj : of_object_t) :
    Option of_object_id_t :=
  match of_tlv16_wire_type_get obj with
  | none => none
  | some wire_type =>
    if wire_type = OF_EXPERIMENTER_TYPE then
      extension_action_object_id_get obj
    else if wire_type < ext.OF_ACTION_ITEM_COUNT then
      let id := ext.of_action_type_to_id obj.version wire_type
      if id = .OF_OBJECT_INVALID then none else some id
    else none

/-- Get the object identifier of an action-id object from the wire
(`of_action_id_wire_object_id_get`). -/
def of_action_id_wire_object_id_get (ext : loci_ext) (obj : of_object_t) :
    Option of_object_id_t :=
  match of_tlv16_wire_type_get obj with
  | none => none
  | some wire_type =>
    if wire_type = OF_EXPERIMENTER_TYPE then
      extension_action_id_object_id_get obj
    else if wire_type < ext.OF_ACTION_ID_ITEM_COUNT then
      let id := ext.of_action_id_type_to_id obj.version wire_type
      if id = .OF_OBJECT_INVALID then none else some id
    else none

/-- Experimenter decode for instructions
(`extension_instruction_object_id_get`): no registered vendor sub-types, so
it ignores the buffer, yields the generic identifier and returns
`OF_ERROR_NONE` (the caller discards the return code). -/
def extension_instruction_object_id_get (_obj : of_object_t) :
    Int × of_object_id_t :=
  (OF_ERROR_NONE, .OF_INSTRUCTION_EXPERIMENTER)

/-- Get the object identifier of an instruction from the wire
(`of_instruction_wire_object_id_get`). -/
def of_instruction_wire_object_id_get (ext : loci_ext) (obj : of_object_t) :
    Option of_object_id_t :=
  match of_tlv16_wire_type_get obj with
  | none => none
  | some wire_type =>
    if wire_type = OF_EXPERIMENTER_TYPE then
      some (extension_instruction_object_id_get obj).2
    else if wire_type < ext.OF_INSTRUCTION_ITEM_COUNT then
      let id := ext.of_instruction_type_to_id obj.version wire_type
      if id = .OF_OBJECT_INVALID then none else some id
    else none

/-- Experimenter decode for queue properties
(`extension_queue_prop_object_id_get`): always the generic identifier. -/
def extension_queue_prop_object_id_get (_obj : of_object_t) : of_object_id_t :=
  .OF_QUEUE_PROP_EXPERIMENTER

/-- Get the object identifier of a queue property from the wire
(`of_queue_prop_wire_object_id_get`). -/
def of_queue_prop_wire_object_id_get (ext : loci_ext) (obj : of_object_t) :
    Option of_object_id_t :=
  match of_tlv16_wire_type_get obj with
  | none => none
  | some wire_type =>
    if wire_type = OF_EXPERIMENTER_TYPE then
      some (extension_queue_prop_object_id_get obj)
    else if wire_type < ext.OF_QUEUE_PROP_ITEM_COUNT then
      let id := ext.of_queue_prop_type_to_id obj.version wire_type
      if id = .OF_OBJECT_INVALID then none else some id
    else none

/-- Experimenter decode for table-feature properties
(`extension_table_feature_prop_object_id_get`): always the generic
identifier. -/
def extension_table_feature_prop_object_id_get (_obj : of_object_t) :
    of_object_id_t :=
  .OF_TABLE_FEATURE_PROP_EXPERIMENTER

/-- Get the object identifier of a table-feature property from the wire
(`of_table_feature_prop_wire_object_id_get`). -/
def of_table_feature_prop_wire_object_id_get (ext : loci_ext)
    (obj : of_object_t) : Option of_object_id_t :=
  match of_tlv16_wire_type_get obj with
  | none => none
  | some wire_type =>
    if wire_type = OF_EXPERIMENTER_TYPE then
      some (extension_table_feature_prop_object_id_get obj)
    else if wire_type < ext.OF_TABLE_FEATURE_PROP_ITEM_COUNT then
      let id := ext.of_table_feature_prop_type_to_id obj.version wire_type
      if id = .OF_OBJECT_INVALID then none else some id
    else none

/-- Get the object identifier of a meter band from the wire
(`of_meter_band_wire_object_id_get`); the experimenter case is handled
inline and yields the generic identifier. -/
def of_meter_band_wire_object_id_get (ext : loci_ext) (obj : of_object_t) :
    Option of_object_id_t :=
  match of_tlv16_wire_type_get obj with
  | none => none
  | some wire_type =>
    if wire_type = OF_EXPERIMENTER_TYPE then
      some .OF_METER_BAND_EXPERIMENTER
    else if wire_type < ext.OF_METER_BAND_ITEM_COUNT then
      let id := ext.of_meter_band_type_to_id obj.version wire_type
      if id = .OF_OBJECT_INVALID then none else some id
    else none

/-- Get the object identifier of a hello element from the wire
(`of_hello_elem_wire_object_id_get`); unlike the other TLV16 families there
is no experimenter branch: the reverse lookup happens unconditionally. -/
def of_hello_elem_wire_object_id_get (ext : loci_ext) (obj : of_object_t) :
    Option of_object_id_t :=
  match of_tlv16_wire_type_get obj with
  | none => none
  | some wire_type =>
    if wire_type < ext.OF_HELLO_ELEM_ITEM_COUNT then
      let id := ext.of_hello_elem_type_to_id obj.version wire_type
      if id = .OF_OBJECT_INVALID then none else some id
    else none

/-- Offset of the packed 32-bit OXM header (`OXM_HDR_OFFSET`). -/
def OXM_HDR_OFFSET : Nat := 0

/-- Modelled from the spec: extract the 8-bit payload length from the packed
OXM header word (`OF_OXM_LENGTH_GET`, the low byte). -/
def OF_OXM_LENGTH_GET (hdr : Nat) : Nat := hdr % 256

/-- Modelled from the spec: replace only the 8-bit length of the packed OXM
header word, preserving the class/field/mask bits (`OF_OXM_LENGTH_SET`). -/
def OF_OXM_LENGTH_SET (hdr v : Nat) : Nat := hdr / 256 * 256 + v % 256

/-- Modelled from the spec: extract the 24-bit masked type
(class/field/mask-flag) from the packed OXM header word
(`OF_OXM_MASKED_TYPE_GET`). -/
def OF_OXM_MASKED_TYPE_GET (hdr : Nat) : Nat := hdr / 256 % 16777216

/-- Modelled from the spec: replace only the 24-bit masked type of the
packed OXM header word, preserving the length byte
(`OF_OXM_MASKED_TYPE_SET`). -/
def OF_OXM_MASKED_TYPE_SET (hdr v : Nat) : Nat := hdr % 256 + v % 16777216 * 256

/-- Get the payload length of an OXM object (`of_oxm_wire_length_get`). -/
def of_oxm_wire_length_get (obj : of_object_t) : Option Nat :=
  match obj.wbuf with
  | none => none
  | some b =>
    let type_len := buf_u32_get b (OF_OBJECT_ABSOLUTE_OFFSET obj OXM_HDR_OFFSET)
    some (OF_OXM_LENGTH_GET type_len)

/-- Set the payload length of an OXM object (`of_oxm_wire_length_set`):
fatal unless `0 ≤ bytes < 256`; the write is a read-modify-write of the
whole header word that replaces only the length byte. -/
def of_oxm_wire_length_set (obj : of_object_t) (bytes : Int) : Option Buf :=
  match obj.wbuf with
  | none => none
  | some b =>
    if 0 ≤ bytes ∧ bytes < 256 then
      let type_len := buf_u32_get b (OF_OBJECT_ABSOLUTE_OFFSET obj OXM_HDR_OFFSET)
      some (buf_u32_set b (OF_OBJECT_ABSOLUTE_OFFSET obj OXM_HDR_OFFSET)
        (OF_OXM_LENGTH_SET type_len bytes.toNat))
    else none

/-- Get the object identifier of an OXM object
(`of_oxm_wire_object_id_get`): extract the masked type and resolve it via
the version-scoped OXM table. -/
def of_oxm_wire_object_id_get (ext : loci_ext) (obj : of_object_t) :
    Option of_object_id_t :=
  match obj.wbuf with
  | none => none
  | some b =>
    let type_len := buf_u32_get b (OF_OBJECT_ABSOLUTE_OFFSET obj OXM_HDR_OFFSET)
    some (ext.of_oxm_to_object_id (OF_OXM_MASKED_TYPE_GET type_len) obj.version)

/-- Set the wire type of an OXM object from an object identifier
(`of_oxm_wire_object_id_set`): fatal unless the identifier is a valid OXM
identifier and its forward code is non-negative; read-modify-write replacing
only the masked-type bits. -/
def of_oxm_wire_object_id_set (ext : loci_ext) (obj : of_object_t)
    (id : of_object_id_t) : Option Buf :=
  match obj.wbuf with
  | none => none
  | some b =>
    if ext.OF_OXM_VALID_ID id then
      let type_len := buf_u32_get b (OF_OBJECT_ABSOLUTE_OFFSET obj OXM_HDR_OFFSET)
      let wire_type := ext.of_object_to_wire_type id obj.version
      if wire_type < 0 then none
      else some (buf_u32_set b (OF_OBJECT_ABSOLUTE_OFFSET obj OXM_HDR_OFFSET)
        (OF_OXM_MASKED_TYPE_SET type_len wire_type.toNat))
    else none

/-- The version-dependent byte offset of the packet-queue length field
(`OF_PACKET_QUEUE_LENGTH_OFFSET`): 8 for version 1.2 and later, 4 before. -/
def OF_PACKET_QUEUE_LENGTH_OFFSET (ver : Nat) : Nat :=
  if OF_VERSION_1_2 ≤ ver then 8 else 4

/-- Get the wire length of a packet queue object
(`of_packet_queue_wire_length_get`); the offset is recomputed from the
handle's version on every call. -/
def of_packet_queue_wire_length_get (obj : of_object_t) : Option Nat :=
  match obj.wbuf with
  | none => none
  | some b =>
    let offset := OF_PACKET_QUEUE_LENGTH_OFFSET obj.version
    some (buf_u16_get b (OF_OBJECT_ABSOLUTE_OFFSET obj offset))

/-- Set the wire length of a packet queue object
(`of_packet_queue_wire_length_set`). -/
def of_packet_queue_wire_length_set (obj : of_object_t) (bytes : Nat) : Option Buf :=
  match obj.wbuf with
  | none => none
  | some b =>
    let offset := OF_PACKET_QUEUE_LENGTH_OFFSET obj.version
    some (buf_u16_set b (OF_OBJECT_ABSOLUTE_OFFSET obj offset) bytes)

/-- Get the derived wire length of a meter-band-stats list
(`of_list_meter_band_stats_wire_length_get`): fatal unless the handle has a
parent whose identifier is `OF_METER_STATS`; the result is the parent's
length minus the parent's fixed header length, with no buffer access. -/
def of_list_meter_band_stats_wire_length_get (ext : loci_ext)
    (obj : of_object_t) : Option Int :=
  match obj.parent with
  | none => none
  | some p =>
    if p.object_id = .OF_METER_STATS then
      some ((p.length : Int) - (ext.OF_OBJECT_FIXED_LENGTH p.object_id : Int))
    else none

/-- Modelled from the spec: the generated experimenter-field setters
(`of_action_bsn_mirror_experimenter_set` and the other five variants) all
write the 32-bit vendor identifier at the fixed vendor offset. -/
def exp_experimenter_set (obj : of_object_t) (v : Nat) : Option of_object_t :=
  match obj.wbuf with
  | none => none
  | some b =>
    some (withBuf obj
      (buf_u32_set b (obj.obj_offset + OF_ACTION_EXPERIMENTER_ID_OFFSET) v))

/-- Modelled from the spec: the generated BSN sub-type setters
(`of_action_bsn_mirror_subtype_set` and the other BSN variants) write a
32-bit sub-type at the fixed sub-type offset. -/
def exp_subtype_u32_set (obj : of_object_t) (v : Nat) : Option of_object_t :=
  match obj.wbuf with
  | none => none
  | some b =>
    some (withBuf obj
      (buf_u32_set b (obj.obj_offset + OF_ACTION_EXPERIMENTER_SUBTYPE_OFFSET) v))

/-- Modelled from the spec: the generated Nicira sub-type setters
(`of_action_nicira_dec_ttl_subtype_set` and the action-id variant) write a
16-bit sub-type at the fixed sub-type offset. -/
def exp_subtype_u16_set (obj : of_object_t) (v : Nat) : Option of_object_t :=
  match obj.wbuf with
  | none => none
  | some b =>
    some (withBuf obj
      (buf_u16_set b (obj.obj_offset + OF_ACTION_EXPERIMENTER_SUBTYPE_OFFSET) v))

/-- Push the experimenter defaults of a freshly created vendor-extension
object (`of_extension_object_wire_push`): dispatch on the handle's own
object identifier, write vendor identifier and sub-type for the six
registered identifiers, do nothing for all others, and always return
`OF_ERROR_NONE`. -/
def of_extension_object_wire_push (obj : of_object_t) : Option (Int × of_object_t) :=
  match obj.object_id with
  | .OF_ACTION_BSN_MIRROR =>
    (exp_experimenter_set obj OF_EXPERIMENTER_ID_BSN).bind fun o1 =>
      (exp_subtype_u32_set o1 1).map fun o2 => (OF_ERROR_NONE, o2)
  | .OF_ACTION_ID_BSN_MIRROR =>
    (exp_experimenter_set obj OF_EXPERIMENTER_ID_BSN).bind fun o1 =>
      (exp_subtype_u32_set o1 1).map fun o2 => (OF_ERROR_NONE, o2)
  | .OF_ACTION_BSN_SET_TUNNEL_DST =>
    (exp_experimenter_set obj OF_EXPERIMENTER_ID_BSN).bind fun o1 =>
      (exp_subtype_u32_set o1 2).map fun o2 => (OF_ERROR_NONE, o2)
  | .OF_ACTION_ID_BSN_SET_TUNNEL_DST =>
    (exp_experimenter_set obj OF_EXPERIMENTER_ID_BSN).bind fun o1 =>
      (exp_subtype_u32_set o1 2).map fun o2 => (OF_ERROR_NONE, o2)
  | .OF_ACTION_NICIRA_DEC_TTL =>
    (exp_experimenter_set obj OF_EXPERIMENTER_ID_NICIRA).bind fun o1 =>
      (exp_subtype_u16_set o1 18).map fun o2 => (OF_ERROR_NONE, o2)
  | .OF_ACTION_ID_NICIRA_DEC_TTL =>
    (exp_experimenter_set obj OF_EXPERIMENTER_ID_NICIRA).bind fun o1 =>
      (exp_subtype_u16_set o1 18).map fun o2 => (OF_ERROR_NONE, o2)
  | _ => some (OF_ERROR_NONE, obj)

/-- The consistency invariant of the action family's Type Resolution Table:
forward and reverse maps are inverses wherever both are defined (a reverse
entry that is not the invalid sentinel maps back to its code; a forward code
inside the reverse table's range maps back to its identifier). -/
def action_table_consistent (ext : loci_ext) : Prop :=
  (∀ v t, t < ext.OF_ACTION_ITEM_COUNT →
    ext.of_action_type_to_id v t ≠ .OF_OBJECT_INVALID →
    ext.of_object_to_type_map v (ext.of_action_type_to_id v t) = (t : Int)) ∧
  (∀ v id, 0 ≤ ext.of_object_to_type_map v id →
    (ext.of_object_to_type_map v id).toNat < ext.OF_ACTION_ITEM_COUNT →
    ext.of_action_type_to_id v (ext.of_object_to_type_map v id).toNat = id)

/-- A concrete, version-independent instantiation of the external tables,
used to evaluate the theorems on closed inputs. -/
def ext0 : loci_ext where
  of_object_to_type_map := fun _v id =>
    match id with
    | .OF_ACTION_OUTPUT => 0
    | .OF_ACTION_EXPERIMENTER => 0xffff
    | .OF_ACTION_BSN_MIRROR => 0xffff
    | .OF_ACTION_BSN_SET_TUNNEL_DST => 0xffff
    | .OF_ACTION_NICIRA_DEC_TTL => 0xffff
    | _ => -1
  of_action_type_to_id := fun _v t =>
    if t = 0 then .OF_ACTION_OUTPUT else .OF_OBJECT_INVALID
  of_action_id_type_to_id := fun _v t =>
    if t = 0 then .OF_ACTION_ID_OUTPUT else .OF_OBJECT_INVALID
  of_instruction_type_to_id := fun _v _t => .OF_OBJECT_INVALID
  of_queue_prop_type_to_id := fun _v _t => .OF_OBJECT_INVALID
  of_table_feature_prop_type_to_id := fun _v _t => .OF_OBJECT_INVALID
  of_meter_band_type_to_id := fun _v t =>
    if t = 1 then .OF_METER_BAND_DROP else .OF_OBJECT_INVALID
  of_hello_elem_type_to_id := fun _v t =>
    if t = 1 then .OF_HELLO_ELEM_VERSIONBITMAP else .OF_OBJECT_INVALID
  OF_ACTION_ITEM_COUNT := 1
  OF_ACTION_ID_ITEM_COUNT := 1
  OF_INSTRUCTION_ITEM_COUNT := 1
  OF_QUEUE_PROP_ITEM_COUNT := 1
  OF_TABLE_FEATURE_PROP_ITEM_COUNT := 1
  OF_METER_BAND_ITEM_COUNT := 2
  OF_HELLO_ELEM_ITEM_COUNT := 2
  of_oxm_to_object_id := fun t _v =>
    if t = 0x800000 then .OF_OXM_IN_PORT else .OF_OBJECT_INVALID
  of_object_to_wire_type := fun id _v =>
    match id with
    | .OF_OXM_IN_PORT => 0x800000
    | _ => -1
  OF_OXM_VALID_ID := fun id =>
    match id with
    | .OF_OXM_IN_PORT => true
    | _ => false
  OF_OBJECT_FIXED_LENGTH := fun id =>
    match id with
    | .OF_METER_STATS => 8
    | _ => 0

/-- An all-zero wire buffer. -/
def zeroBuf : Buf := fun _ => 0

/-- A buffer whose vendor field already holds the BSN vendor identifier with
sub-type 1, and arbitrary (zero) bytes elsewhere. -/
def dirtyBuf : Buf := fun i =>
  if i = 5 then 0x5c else if i = 6 then 0x16 else if i = 7 then 0xc7
  else if i = 11 then 1 else 0

/-- A buffer whose TLV16 type field holds the EXPERIMENTER sentinel and
whose remaining bytes are zero. -/
def expBuf : Buf := fun i => if i = 0 then 255 else if i = 1 then 255 else 0

/-- A buffer whose TLV16 type field holds the wire code 5. -/
def fiveBuf : Buf := fun i => if i = 1 then 5 else 0

/-- Build a parentless handle at buffer offset 0. -/
def mkObj (v : Nat) (id : of_object_id_t) (b : Option Buf) : of_object_t :=
  { version := v, object_id := id, obj_offset := 0, length := 0,
    parent := none, wbuf := b }

theorem buf_u16_set_outside (b : Buf) (off v i : Nat)
    (h : i < off ∨ off + 2 ≤ i) : buf_u16_set b off v i = b i := by
  unfold buf_u16_set
  rw [if_neg (by omega), if_neg (by omega)]

theorem buf_u32_set_outside (b : Buf) (off v i : Nat)
    (h : i < off ∨ off + 4 ≤ i) : buf_u32_set b off v i = b i := by
  unfold buf_u32_set
  rw [if_neg (by omega), if_neg (by omega), if_neg (by omega), if_neg (by omega)]

theorem buf_u16_get_set_same (b : Buf) (off v : Nat) :
    buf_u16_get (buf_u16_set b off v) off = v % 65536 := by
  unfold buf_u16_get buf_u16_set
  rw [if_pos rfl, if_neg (by omega), if_pos rfl]
  omega

theorem buf_u32_get_set_same (b : Buf) (off v : Nat) :
    buf_u32_get (buf_u32_set b off v) off = v % 4294967296 := by
  unfold buf_u32_get buf_u32_set
  rw [if_pos rfl,
    if_neg (by omega), if_pos rfl,
    if_neg (by omega), if_neg (by omega), if_pos rfl,
    if_neg (by omega), if_neg (by omega), if_neg (by omega), if_pos rfl]
  omega

theorem buf_u16_get_u16_set_disjoint (b : Buf) (off off' v : Nat)
    (h : off + 2 ≤ off' ∨ off' + 2 ≤ off) :
    buf_u16_get (buf_u16_set b off' v) off = buf_u16_get b off := by
  unfold buf_u16_get
  rw [buf_u16_set_outside b off' v off (by omega),
    buf_u16_set_outside b off' v (off + 1) (by omega)]

theorem buf_u16_get_u32_set_disjoint (b : Buf) (off off' v : Nat)
    (h : off + 2 ≤ off' ∨ off' + 4 ≤ off) :
    buf_u16_get (buf_u32_set b off' v) off = buf_u16_get b off := by
  unfold buf_u16_get
  rw [buf_u32_set_outside b off' v off (by omega),
    buf_u32_set_outside b off' v (off + 1) (by omega)]

theorem buf_u32_get_u16_set_disjoint (b : Buf) (off off' v : Nat)
    (h : off + 4 ≤ off' ∨ off' + 2 ≤ off) :
    buf_u32_get (buf_u16_set b off' v) off = buf_u32_get b off := by
  unfold buf_u32_get
  rw [buf_u16_set_outside b off' v off (by omega),
    buf_u16_set_outside b off' v (off + 1) (by omega),
    buf_u16_set_outside b off' v (off + 2) (by omega),
    buf_u16_set_outside b off' v (off + 3) (by omega)]

theorem buf_u32_get_u32_set_disjoint (b : Buf) (off off' v : Nat)
    (h : off + 4 ≤ off' ∨ off' + 4 ≤ off) :
    buf_u32_get (buf_u32_set b off' v) off = buf_u32_get b off := by
  unfold buf_u32_get
  rw [buf_u32_set_outside b off' v off (by omega),
    buf_u32_set_outside b off' v (off + 1) (by omega),
    buf_u32_set_outside b off' v (off + 2) (by omega),
    buf_u32_set_outside b off' v (off + 3) (by omega)]

theorem buf_u16_get_lt (b : Buf) (off : Nat) : buf_u16_get b off < 65536 := by
  unfold buf_u16_get
  have h1 := Nat.mod_lt (b off) (show 0 < 256 by omega)
  have h2 := Nat.mod_lt (b (off + 1)) (show 0 < 256 by omega)
  omega

theorem buf_u32_get_lt (b : Buf) (off : Nat) : buf_u32_get b off < 4294967296 := by
  unfold buf_u32_get
  have h1 := Nat.mod_lt (b off) (show 0 < 256 by omega)
  have h2 := Nat.mod_lt (b (off + 1)) (show 0 < 256 by omega)
  have h3 := Nat.mod_lt (b (off + 2)) (show 0 < 256 by omega)
  have h4 := Nat.mod_lt (b (off + 3)) (show 0 < 256 by omega)
  omega

/-- Claim C1: for an action object whose 16-bit TLV wire type equals the
EXPERIMENTER code, `of_action_wire_object_id_get` never fails and resolves
the identifier from the 32-bit vendor identifier at offset 4: BSN sub-type 1
(32-bit, offset 8) gives the BSN mirror identifier, BSN sub-type 2 the BSN
set-tunnel-dst identifier, Nicira sub-type 18 (16-bit, offset 8) the Nicira
decrement-TTL identifier, and any other vendor or unmatched sub-type the
generic `OF_ACTION_EXPERIMENTER` identifier. -/
theorem claim_C1 (ext : loci_ext) (obj : of_object_t) (b : Buf)
    (hb : obj.wbuf = some b)
    (ht : buf_u16_get b (obj.obj_offset + TLV16_WIRE_TYPE_OFFSET) = OF_EXPERIMENTER_TYPE) :
    (∃ r, of_action_wire_object_id_get ext obj = some r) ∧
    (buf_u32_get b (obj.obj_offset + OF_ACTION_EXPERIMENTER_ID_OFFSET) = OF_EXPERIMENTER_ID_BSN →
      buf_u32_get b (obj.obj_offset + OF_ACTION_EXPERIMENTER_SUBTYPE_OFFSET) = 1 →
      of_action_wire_object_id_get ext obj = some .OF_ACTION_BSN_MIRROR) ∧
    (buf_u32_get b (obj.obj_offset + OF_ACTION_EXPERIMENTER_ID_OFFSET) = OF_EXPERIMENTER_ID_BSN →
      buf_u32_get b (obj.obj_offset + OF_ACTION_EXPERIMENTER_SUBTYPE_OFFSET) = 2 →
      of_action_wire_object_id_get ext obj = some .OF_ACTION_BSN_SET_TUNNEL_DST) ∧
    (buf_u32_get b (obj.obj_offset + OF_ACTION_EXPERIMENTER_ID_OFFSET) = OF_EXPERIMENTER_ID_NICIRA →
      buf_u16_get b (obj.obj_offset + OF_ACTION_EXPERIMENTER_SUBTYPE_OFFSET) = 18 →
      of_action_wire_object_id_get ext obj = some .OF_ACTION_NICIRA_DEC_TTL) ∧
    (buf_u32_get b (obj.obj_offset + OF_ACTION_EXPERIMENTER_ID_OFFSET) = OF_EXPERIMENTER_ID_BSN →
      buf_u32_get b (obj.obj_offset + OF_ACTION_EXPERIMENTER_SUBTYPE_OFFSET) ≠ 1 →
      buf_u32_get b (obj.obj_offset + OF_ACTION_EXPERIMENTER_SUBTYPE_OFFSET) ≠ 2 →
      of_action_wire_object_id_get ext obj = some .OF_ACTION_EXPERIMENTER) ∧
    (buf_u32_get b (obj.obj_offset + OF_ACTION_EXPERIMENTER_ID_OFFSET) = OF_EXPERIMENTER_ID_NICIRA →
      buf_u16_get b (obj.obj_offset + OF_ACTION_EXPERIMENTER_SUBTYPE_OFFSET) ≠ 18 →
      of_action_wire_object_id_get ext obj = some .OF_ACTION_EXPERIMENTER) ∧
    (buf_u32_get b (obj.obj_offset + OF_ACTION_EXPERIMENTER_ID_OFFSET) ≠ OF_EXPERIMENTER_ID_BSN →
      buf_u32_get b (obj.obj_offset + OF_ACTION_EXPERIMENTER_ID_OFFSET) ≠ OF_EXPERIMENTER_ID_NICIRA →
      of_action_wire_object_id_get ext obj = some .OF_ACTION_EXPERIMENTER) := by
  have h1 : of_tlv16_wire_type_get obj = some OF_EXPERIMENTER_TYPE := by
    simp only [of_tlv16_wire_type_get, hb, OF_OBJECT_ABSOLUTE_OFFSET, ht]
  have hg : of_action_wire_object_id_get ext obj = extension_action_object_id_get obj := by
    simp only [of_action_wire_object_id_get, h1]
    simp
  have hd : ∀ r, (extension_action_object_id_get obj = some r) →
      of_action_wire_object_id_get ext obj = some r := by
    intro r hr
    rw [hg, hr]
  have hBSNne : (OF_EXPERIMENTER_ID_NICIRA : Nat) ≠ OF_EXPERIMENTER_ID_BSN := by decide
  refine ⟨?_, ?_, ?_, ?_, ?_, ?_, ?_⟩
  · rw [hg]
    simp only [extension_action_object_id_get, hb]
    exact ⟨_, rfl⟩
  · intro hv hs
    refine hd _ ?_
    simp only [extension_action_object_id_get, hb, hv, hs]
    simp
  · intro hv hs
    refine hd _ ?_
    simp only [extension_action_object_id_get, hb, hv, hs]
    norm_num
  · intro hv hs
    refine hd _ ?_
    simp only [extension_action_object_id_get, hb, hv, hs, hBSNne]
    norm_num
  · intro hv hs1 hs2
    refine hd _ ?_
    simp only [extension_action_object_id_get, hb, hv, if_neg hs1, if_neg hs2]
    simp
  · intro hv hs
    refine hd _ ?_
    simp only [extension_action_object_id_get, hb, hv, hBSNne, if_neg hs]
    norm_num
  · intro hv1 hv2
    refine hd _ ?_
    simp only [extension_action_object_id_get, hb, if_neg hv1, if_neg hv2]

theorem claim_C1_witness :
    of_action_wire_object_id_get ext0 (mkObj 1 .OF_ACTION_EXPERIMENTER (some expBuf)) =
      some .OF_ACTION_EXPERIMENTER :=
  (claim_C1 ext0 (mkObj 1 .OF_ACTION_EXPERIMENTER (some expBuf)) expBuf rfl
    (by decide)).2.2.2.2.2.2 (by decide) (by decide)

/-- Claim C3: `of_tlv16_wire_object_id_set` looks the identifier up in the
forward table for the handle's version, fails fatally on a negative
("invalid") code, writes the resolved 16-bit code at byte offset 0, and
invokes the experimenter encode path exactly when the resolved code is the
EXPERIMENTER sentinel. -/
theorem claim_C3 (ext : loci_ext) (obj : of_object_t) (b : Buf)
    (id : of_object_id_t) (w : Int)
    (hb : obj.wbuf = some b)
    (hw : ext.of_object_to_type_map obj.version id = w) :
    (w < 0 → of_tlv16_wire_object_id_set ext obj id = none) ∧
    (0 ≤ w → w ≠ (OF_EXPERIMENTER_TYPE : Int) →
      of_tlv16_wire_object_id_set ext obj id =
        some (buf_u16_set b (obj.obj_offset + TLV16_WIRE_TYPE_OFFSET) w.toNat)) ∧
    (w = (OF_EXPERIMENTER_TYPE : Int) →
      of_tlv16_wire_object_id_set ext obj id =
        of_extension_object_id_set
          (withBuf obj (buf_u16_set b (obj.obj_offset + TLV16_WIRE_TYPE_OFFSET) w.toNat))
          id) := by
  refine ⟨?_, ?_, ?_⟩
  · intro h
    simp only [of_tlv16_wire_object_id_set, hb, hw, OF_OBJECT_ABSOLUTE_OFFSET]
    rw [if_pos h]
  · intro h0 hne
    simp only [of_tlv16_wire_object_id_set, hb, hw, OF_OBJECT_ABSOLUTE_OFFSET]
    rw [if_neg (not_lt.mpr h0), if_neg hne]
  · intro heq
    simp only [of_tlv16_wire_object_id_set, hb, hw, OF_OBJECT_ABSOLUTE_OFFSET]
    rw [if_neg (not_lt.mpr (by rw [heq]; norm_num [OF_EXPERIMENTER_TYPE])), if_pos heq]

theorem claim_C3_witness :
    of_tlv16_wire_object_id_set ext0 (mkObj 1 .OF_ACTION_OUTPUT (some zeroBuf))
        .OF_ACTION_OUTPUT =
      some (buf_u16_set zeroBuf ((mkObj 1 .OF_ACTION_OUTPUT (some zeroBuf)).obj_offset +
        TLV16_WIRE_TYPE_OFFSET) (Int.toNat 0)) :=
  (claim_C3 ext0 (mkObj 1 .OF_ACTION_OUTPUT (some zeroBuf)) zeroBuf
    .OF_ACTION_OUTPUT 0 rfl rfl).2.1 (by decide) (by decide)

/-- Claim C7: `of_extension_object_id_set` on any identifier other than the
six registered vendor-extension identifiers is a silent no-op: it does not
fail and returns the attached buffer with every byte unchanged. -/
theorem claim_C7 (obj : of_object_t) (b : Buf) (id : of_object_id_t)
    (hb : obj.wbuf = some b)
    (h1 : id ≠ .OF_ACTION_BSN_MIRROR) (h2 : id ≠ .OF_ACTION_ID_BSN_MIRROR)
    (h3 : id ≠ .OF_ACTION_BSN_SET_TUNNEL_DST)
    (h4 : id ≠ .OF_ACTION_ID_BSN_SET_TUNNEL_DST)
    (h5 : id ≠ .OF_ACTION_NICIRA_DEC_TTL)
    (h6 : id ≠ .OF_ACTION_ID_NICIRA_DEC_TTL) :
    of_extension_object_id_set obj id = some b := by
  cases id <;> simp_all [of_extension_object_id_set]

theorem claim_C7_witness :
    of_extension_object_id_set (mkObj 1 .OF_ACTION_OUTPUT (some zeroBuf))
      .OF_ACTION_OUTPUT = some zeroBuf :=
  claim_C7 (mkObj 1 .OF_ACTION_OUTPUT (some zeroBuf)) zeroBuf .OF_ACTION_OUTPUT rfl
    (by decide) (by decide) (by decide) (by decide) (by decide) (by decide)

theorem action_get_of_wire (ext : loci_ext) (obj : of_object_t) {b : Buf} (base : Nat)
    (hb : obj.wbuf = some b) (hoff : obj.obj_offset = base)
    (ht : buf_u16_get b (base + TLV16_WIRE_TYPE_OFFSET) = OF_EXPERIMENTER_TYPE)
    {r : of_object_id_t}
    (hr : (if buf_u32_get b (base + OF_ACTION_EXPERIMENTER_ID_OFFSET) = OF_EXPERIMENTER_ID_BSN then
        if buf_u32_get b (base + OF_ACTION_EXPERIMENTER_SUBTYPE_OFFSET) = 1 then
          of_object_id_t.OF_ACTION_BSN_MIRROR
        else if buf_u32_get b (base + OF_ACTION_EXPERIMENTER_SUBTYPE_OFFSET) = 2 then
          of_object_id_t.OF_ACTION_BSN_SET_TUNNEL_DST
        else of_object_id_t.OF_ACTION_EXPERIMENTER
      else if buf_u32_get b (base + OF_ACTION_EXPERIMENTER_ID_OFFSET) = OF_EXPERIMENTER_ID_NICIRA then
        if buf_u16_get b (base + OF_ACTION_EXPERIMENTER_SUBTYPE_OFFSET) = 18 then
          of_object_id_t.OF_ACTION_NICIRA_DEC_TTL
        else of_object_id_t.OF_ACTION_EXPERIMENTER
      else of_object_id_t.OF_ACTION_EXPERIMENTER) = r) :
    of_action_wire_object_id_get ext obj = some r := by
  subst hoff
  have h1 : of_tlv16_wire_type_get obj = some OF_EXPERIMENTER_TYPE := by
    simp only [of_tlv16_wire_type_get, hb, OF_OBJECT_ABSOLUTE_OFFSET, ht]
  have hg : of_action_wire_object_id_get ext obj = extension_action_object_id_get obj := by
    simp only [of_action_wire_object_id_get, h1]
    simp
  rw [hg]
  simp only [extension_action_object_id_get, hb]
  exact congrArg some hr

/-- Claim C2 (amended): for every identifier whose forward table code for
the handle's version is non-negative and fits in 16 bits,
`of_tlv16_wire_object_id_set` followed by `of_action_wire_object_id_get`
returns the original identifier (a) whenever the code is not the
EXPERIMENTER sentinel and the reverse table maps the code back to the
identifier, and (b) for the three registered action vendor-extension
identifiers, whose code is the EXPERIMENTER sentinel; (c) the generic
`OF_ACTION_EXPERIMENTER` identifier round-trips only when the buffer's
pre-existing vendor field matches no registered vendor. -/
theorem claim_C2 (ext : loci_ext) (obj : of_object_t) (b : Buf)
    (id : of_object_id_t) (w : Int)
    (hb : obj.wbuf = some b)
    (hw : ext.of_object_to_type_map obj.version id = w)
    (h0 : 0 ≤ w) (h16 : w < 65536) :
    (w ≠ (OF_EXPERIMENTER_TYPE : Int) →
      w.toNat < ext.OF_ACTION_ITEM_COUNT →
      ext.of_action_type_to_id obj.version w.toNat = id →
      id ≠ .OF_OBJECT_INVALID →
      ∃ b', of_tlv16_wire_object_id_set ext obj id = some b' ∧
        of_action_wire_object_id_get ext (withBuf obj b') = some id) ∧
    (w = (OF_EXPERIMENTER_TYPE : Int) →
      (id = .OF_ACTION_BSN_MIRROR ∨ id = .OF_ACTION_BSN_SET_TUNNEL_DST ∨
        id = .OF_ACTION_NICIRA_DEC_TTL) →
      ∃ b', of_tlv16_wire_object_id_set ext obj id = some b' ∧
        of_action_wire_object_id_get ext (withBuf obj b') = some id) ∧
    (w = (OF_EXPERIMENTER_TYPE : Int) → id = .OF_ACTION_EXPERIMENTER →
      buf_u32_get b (obj.obj_offset + OF_ACTION_EXPERIMENTER_ID_OFFSET) ≠
        OF_EXPERIMENTER_ID_BSN →
      buf_u32_get b (obj.obj_offset + OF_ACTION_EXPERIMENTER_ID_OFFSET) ≠
        OF_EXPERIMENTER_ID_NICIRA →
      ∃ b', of_tlv16_wire_object_id_set ext obj id = some b' ∧
        of_action_wire_object_id_get ext (withBuf obj b') = some id) := by
  have h16' : w.toNat < 65536 := by omega
  refine ⟨?_, ?_, ?_⟩
  · -- (a) ordinary wire types: reverse lookup undoes the forward write
    intro hne hcount hrev hinv
    refine ⟨buf_u16_set b (obj.obj_offset + TLV16_WIRE_TYPE_OFFSET) w.toNat, ?_, ?_⟩
    · simp only [of_tlv16_wire_object_id_set, hb, hw, OF_OBJECT_ABSOLUTE_OFFSET]
      rw [if_neg (not_lt.mpr h0), if_neg hne]
    · have htg : of_tlv16_wire_type_get
          (withBuf obj (buf_u16_set b (obj.obj_offset + TLV16_WIRE_TYPE_OFFSET) w.toNat)) =
          some w.toNat := by
        simp only [of_tlv16_wire_type_get, withBuf, OF_OBJECT_ABSOLUTE_OFFSET]
        rw [buf_u16_get_set_same]
        congr 1
        omega
      simp only [of_action_wire_object_id_get, htg]
      have hNe : w.toNat ≠ OF_EXPERIMENTER_TYPE := by
        simp only [OF_EXPERIMENTER_TYPE] at hne ⊢
        omega
      have hrev2 : ext.of_action_type_to_id
          (withBuf obj (buf_u16_set b (obj.obj_offset + TLV16_WIRE_TYPE_OFFSET) w.toNat)).version
          w.toNat = id := hrev
      rw [if_neg hNe, if_pos hcount, hrev2, if_neg hinv]
  · -- (b) the three registered vendor-extension identifiers
    intro heq hid
    subst heq
    rcases hid with rfl | rfl | rfl
    · refine ⟨buf_u32_set
        (buf_u32_set
          (buf_u16_set b (obj.obj_offset + TLV16_WIRE_TYPE_OFFSET)
            ((OF_EXPERIMENTER_TYPE : Int)).toNat)
          (obj.obj_offset + OF_ACTION_EXPERIMENTER_ID_OFFSET) OF_EXPERIMENTER_ID_BSN)
        (obj.obj_offset + OF_ACTION_EXPERIMENTER_SUBTYPE_OFFSET) 1, ?_, ?_⟩
      · simp only [of_tlv16_wire_object_id_set, hb, hw, OF_OBJECT_ABSOLUTE_OFFSET]
        rw [if_neg (not_lt.mpr (by decide))]
        simp only [if_true]
        rfl
      · apply action_get_of_wire ext _ obj.obj_offset
        · rfl
        · rfl
        · rw [buf_u16_get_u32_set_disjoint _ _ _ _
            (by simp only [TLV16_WIRE_TYPE_OFFSET, OF_ACTION_EXPERIMENTER_SUBTYPE_OFFSET]; omega),
            buf_u16_get_u32_set_disjoint _ _ _ _
            (by simp only [TLV16_WIRE_TYPE_OFFSET, OF_ACTION_EXPERIMENTER_ID_OFFSET]; omega),
            buf_u16_get_set_same]
          decide
        · rw [buf_u32_get_u32_set_disjoint _ _ _ _
            (by simp only [OF_ACTION_EXPERIMENTER_ID_OFFSET, OF_ACTION_EXPERIMENTER_SUBTYPE_OFFSET]; omega),
            buf_u32_get_set_same, buf_u32_get_set_same]
          norm_num [OF_EXPERIMENTER_ID_BSN]
    · refine ⟨buf_u32_set
        (buf_u32_set
          (buf_u16_set b (obj.obj_offset + TLV16_WIRE_TYPE_OFFSET)
            ((OF_EXPERIMENTER_TYPE : Int)).toNat)
          (obj.obj_offset + OF_ACTION_EXPERIMENTER_ID_OFFSET) OF_EXPERIMENTER_ID_BSN)
        (obj.obj_offset + OF_ACTION_EXPERIMENTER_SUBTYPE_OFFSET) 2, ?_, ?_⟩
      · simp only [of_tlv16_wire_object_id_set, hb, hw, OF_OBJECT_ABSOLUTE_OFFSET]
        rw [if_neg (not_lt.mpr (by decide))]
        simp only [if_true]
        rfl
      · apply action_get_of_wire ext _ obj.obj_offset
        · rfl
        · rfl
        · rw [buf_u16_get_u32_set_disjoint _ _ _ _
            (by simp only [TLV16_WIRE_TYPE_OFFSET, OF_ACTION_EXPERIMENTER_SUBTYPE_OFFSET]; omega),
            buf_u16_get_u32_set_disjoint _ _ _ _
            (by simp only [TLV16_WIRE_TYPE_OFFSET, OF_ACTION_EXPERIMENTER_ID_OFFSET]; omega),
            buf_u16_get_set_same]
          decide
        · rw [buf_u32_get_u32_set_disjoint _ _ _ _
            (by simp only [OF_ACTION_EXPERIMENTER_ID_OFFSET, OF_ACTION_EXPERIMENTER_SUBTYPE_OFFSET]; omega),
            buf_u32_get_set_same, buf_u32_get_set_same]
          norm_num [OF_EXPERIMENTER_ID_BSN]
    · refine ⟨buf_u16_set
        (buf_u32_set
          (buf_u16_set b (obj.obj_offset + TLV16_WIRE_TYPE_OFFSET)
            ((OF_EXPERIMENTER_TYPE : Int)).toNat)
          (obj.obj_offset + OF_ACTION_EXPERIMENTER_ID_OFFSET) OF_EXPERIMENTER_ID_NICIRA)
        (obj.obj_offset + OF_ACTION_EXPERIMENTER_SUBTYPE_OFFSET) 18, ?_, ?_⟩
      · simp only [of_tlv16_wire_object_id_set, hb, hw, OF_OBJECT_ABSOLUTE_OFFSET]
        rw [if_neg (not_lt.mpr (by decide))]
        simp only [if_true]
        rfl
      · apply action_get_of_wire ext _ obj.obj_offset
        · rfl
        · rfl
        · rw [buf_u16_get_u16_set_disjoint _ _ _ _
            (by simp only [TLV16_WIRE_TYPE_OFFSET, OF_ACTION_EXPERIMENTER_SUBTYPE_OFFSET]; omega),
            buf_u16_get_u32_set_disjoint _ _ _ _
            (by simp only [TLV16_WIRE_TYPE_OFFSET, OF_ACTION_EXPERIMENTER_ID_OFFSET]; omega),
            buf_u16_get_set_same]
          decide
        · rw [buf_u32_get_u16_set_disjoint _ _ _ _
            (by simp only [OF_ACTION_EXPERIMENTER_ID_OFFSET, OF_ACTION_EXPERIMENTER_SUBTYPE_OFFSET]; omega),
            buf_u32_get_set_same, buf_u16_get_set_same]
          norm_num [OF_EXPERIMENTER_ID_BSN, OF_EXPERIMENTER_ID_NICIRA]
  · -- (c) the generic experimenter identifier on a clean vendor field
    intro heq hid hv1 hv2
    subst heq
    subst hid
    refine ⟨buf_u16_set b (obj.obj_offset + TLV16_WIRE_TYPE_OFFSET)
      ((OF_EXPERIMENTER_TYPE : Int)).toNat, ?_, ?_⟩
    · simp only [of_tlv16_wire_object_id_set, hb, hw, OF_OBJECT_ABSOLUTE_OFFSET]
      rw [if_neg (not_lt.mpr (by decide))]
      simp only [if_true]
      rfl
    · apply action_get_of_wire ext _ obj.obj_offset
      · rfl
      · rfl
      · rw [buf_u16_get_set_same]
        decide
      · have hvv : buf_u32_get
            (buf_u16_set b (obj.obj_offset + TLV16_WIRE_TYPE_OFFSET)
              ((OF_EXPERIMENTER_TYPE : Int)).toNat)
            (obj.obj_offset + OF_ACTION_EXPERIMENTER_ID_OFFSET) =
            buf_u32_get b (obj.obj_offset + OF_ACTION_EXPERIMENTER_ID_OFFSET) :=
          buf_u32_get_u16_set_disjoint _ _ _ _
            (by simp only [TLV16_WIRE_TYPE_OFFSET, OF_ACTION_EXPERIMENTER_ID_OFFSET]; omega)
        rw [hvv, if_neg hv1, if_neg hv2]

theorem claim_C2_witness :
    ∃ b', of_tlv16_wire_object_id_set ext0
        (mkObj 1 .OF_ACTION_BSN_MIRROR (some zeroBuf)) .OF_ACTION_BSN_MIRROR = some b' ∧
      of_action_wire_object_id_get ext0
        (withBuf (mkObj 1 .OF_ACTION_BSN_MIRROR (some zeroBuf)) b') =
        some .OF_ACTION_BSN_MIRROR :=
  (claim_C2 ext0 (mkObj 1 .OF_ACTION_BSN_MIRROR (some zeroBuf)) zeroBuf
    .OF_ACTION_BSN_MIRROR ((OF_EXPERIMENTER_TYPE : Nat) : Int) rfl (by decide)
    (by decide) (by decide)).2.1 rfl (Or.inl rfl)

/-- Claim C2, counterexample to the claim as stated: with a table satisfying
the consistency invariant in which the generic `OF_ACTION_EXPERIMENTER`
identifier has wire code `0xffff`, setting that identifier on a buffer whose
vendor field already holds the BSN vendor with sub-type 1 and reading it
back yields `OF_ACTION_BSN_MIRROR`, not the original identifier. -/
theorem claim_C2_counterexample :
    action_table_consistent ext0 ∧
    ext0.of_object_to_type_map 1 .OF_ACTION_EXPERIMENTER =
      ((OF_EXPERIMENTER_TYPE : Nat) : Int) ∧
    (∃ b', of_tlv16_wire_object_id_set ext0
        (mkObj 1 .OF_ACTION_EXPERIMENTER (some dirtyBuf)) .OF_ACTION_EXPERIMENTER =
        some b' ∧
      of_action_wire_object_id_get ext0
        (withBuf (mkObj 1 .OF_ACTION_EXPERIMENTER (some dirtyBuf)) b') =
        some .OF_ACTION_BSN_MIRROR) ∧
    of_object_id_t.OF_ACTION_BSN_MIRROR ≠ .OF_ACTION_EXPERIMENTER := by
  refine ⟨⟨?_, ?_⟩, by decide, ⟨buf_u16_set dirtyBuf 0 65535, ?_, ?_⟩, by decide⟩
  · intro v t ht hne
    have hcount : ext0.OF_ACTION_ITEM_COUNT = 1 := rfl
    have ht0 : t = 0 := by omega
    subst ht0
    rfl
  · intro v id h0 hlt
    cases id <;> simp_all [ext0]
  · rfl
  · rfl

theorem oxm_get_of_word (ext : loci_ext) (obj : of_object_t) (b : Buf)
    (hb : obj.wbuf = some b) :
    of_oxm_wire_object_id_get ext obj =
      some (ext.of_oxm_to_object_id
        (OF_OXM_MASKED_TYPE_GET (buf_u32_get b (obj.obj_offset + OXM_HDR_OFFSET)))
        obj.version) ∧
    of_oxm_wire_length_get obj =
      some (OF_OXM_LENGTH_GET (buf_u32_get b (obj.obj_offset + OXM_HDR_OFFSET))) := by
  constructor <;>
    simp only [of_oxm_wire_object_id_get, of_oxm_wire_length_get, hb,
      OF_OBJECT_ABSOLUTE_OFFSET]

theorem oxm_word_arith (W w' n' : Nat) (_hW : W < 4294967296)
    (hw24 : w' < 16777216) (hn : n' < 256) :
    OF_OXM_MASKED_TYPE_GET
      (OF_OXM_LENGTH_SET (OF_OXM_MASKED_TYPE_SET W w' % 4294967296) n' % 4294967296) = w' ∧
    OF_OXM_LENGTH_GET
      (OF_OXM_LENGTH_SET (OF_OXM_MASKED_TYPE_SET W w' % 4294967296) n' % 4294967296) = n' ∧
    OF_OXM_MASKED_TYPE_GET
      (OF_OXM_MASKED_TYPE_SET (OF_OXM_LENGTH_SET W n' % 4294967296) w' % 4294967296) = w' ∧
    OF_OXM_LENGTH_GET
      (OF_OXM_MASKED_TYPE_SET (OF_OXM_LENGTH_SET W n' % 4294967296) w' % 4294967296) = n' := by
  unfold OF_OXM_MASKED_TYPE_GET OF_OXM_MASKED_TYPE_SET OF_OXM_LENGTH_GET OF_OXM_LENGTH_SET
  refine ⟨?_, ?_, ?_, ?_⟩ <;> omega

/-- Claim C4: for a valid OXM identifier X with a consistent table entry and
a length n with 0 ≤ n < 256, `of_oxm_wire_object_id_set` and
`of_oxm_wire_length_set` commute: applied in either order, the subsequent
`of_oxm_wire_object_id_get` returns X and `of_oxm_wire_length_get` returns
n, because each setter read-modify-writes only its own bits of the packed
32-bit header word. -/
theorem claim_C4 (ext : loci_ext) (obj : of_object_t) (b : Buf)
    (X : of_object_id_t) (w n : Int)
    (hb : obj.wbuf = some b)
    (hvalid : ext.OF_OXM_VALID_ID X = true)
    (hw : ext.of_object_to_wire_type X obj.version = w)
    (h0 : 0 ≤ w) (h24 : w < 16777216)
    (hrev : ext.of_oxm_to_object_id w.toNat obj.version = X)
    (hn0 : 0 ≤ n) (hn : n < 256) :
    (∃ b1 b2, of_oxm_wire_object_id_set ext obj X = some b1 ∧
      of_oxm_wire_length_set (withBuf obj b1) n = some b2 ∧
      of_oxm_wire_object_id_get ext (withBuf obj b2) = some X ∧
      of_oxm_wire_length_get (withBuf obj b2) = some n.toNat) ∧
    (∃ b1 b2, of_oxm_wire_length_set obj n = some b1 ∧
      of_oxm_wire_object_id_set ext (withBuf obj b1) X = some b2 ∧
      of_oxm_wire_object_id_get ext (withBuf obj b2) = some X ∧
      of_oxm_wire_length_get (withBuf obj b2) = some n.toNat) := by
  have hw24 : w.toNat < 16777216 := by omega
  have hn256 : n.toNat < 256 := by omega
  have hWlt : buf_u32_get b (obj.obj_offset + OXM_HDR_OFFSET) < 4294967296 :=
    buf_u32_get_lt b (obj.obj_offset + OXM_HDR_OFFSET)
  have harith := oxm_word_arith (buf_u32_get b (obj.obj_offset + OXM_HDR_OFFSET))
    w.toNat n.toNat hWlt hw24 hn256
  constructor
  · -- identity first, then length
    refine ⟨buf_u32_set b (obj.obj_offset + OXM_HDR_OFFSET)
        (OF_OXM_MASKED_TYPE_SET (buf_u32_get b (obj.obj_offset + OXM_HDR_OFFSET)) w.toNat),
      buf_u32_set
        (buf_u32_set b (obj.obj_offset + OXM_HDR_OFFSET)
          (OF_OXM_MASKED_TYPE_SET (buf_u32_get b (obj.obj_offset + OXM_HDR_OFFSET)) w.toNat))
        (obj.obj_offset + OXM_HDR_OFFSET)
        (OF_OXM_LENGTH_SET
          (buf_u32_get
            (buf_u32_set b (obj.obj_offset + OXM_HDR_OFFSET)
              (OF_OXM_MASKED_TYPE_SET (buf_u32_get b (obj.obj_offset + OXM_HDR_OFFSET)) w.toNat))
            (obj.obj_offset + OXM_HDR_OFFSET))
          n.toNat), ?_, ?_, ?_, ?_⟩
    · simp only [of_oxm_wire_object_id_set, hb, OF_OBJECT_ABSOLUTE_OFFSET]
      rw [if_pos hvalid, hw, if_neg (not_lt.mpr h0)]
    · simp only [of_oxm_wire_length_set, withBuf, OF_OBJECT_ABSOLUTE_OFFSET]
      rw [if_pos ⟨hn0, hn⟩]
    · rw [(oxm_get_of_word ext (withBuf obj _) _ rfl).1]
      simp only [withBuf]
      rw [buf_u32_get_set_same, buf_u32_get_set_same, harith.1, hrev]
    · rw [(oxm_get_of_word ext (withBuf obj _) _ rfl).2]
      simp only [withBuf]
      rw [buf_u32_get_set_same, buf_u32_get_set_same, harith.2.1]
  · -- length first, then identity
    refine ⟨buf_u32_set b (obj.obj_offset + OXM_HDR_OFFSET)
        (OF_OXM_LENGTH_SET (buf_u32_get b (obj.obj_offset + OXM_HDR_OFFSET)) n.toNat),
      buf_u32_set
        (buf_u32_set b (obj.obj_offset + OXM_HDR_OFFSET)
          (OF_OXM_LENGTH_SET (buf_u32_get b (obj.obj_offset + OXM_HDR_OFFSET)) n.toNat))
        (obj.obj_offset + OXM_HDR_OFFSET)
        (OF_OXM_MASKED_TYPE_SET
          (buf_u32_get
            (buf_u32_set b (obj.obj_offset + OXM_HDR_OFFSET)
              (OF_OXM_LENGTH_SET (buf_u32_get b (obj.obj_offset + OXM_HDR_OFFSET)) n.toNat))
            (obj.obj_offset + OXM_HDR_OFFSET))
          w.toNat), ?_, ?_, ?_, ?_⟩
    · simp only [of_oxm_wire_length_set, hb, OF_OBJECT_ABSOLUTE_OFFSET]
      rw [if_pos ⟨hn0, hn⟩]
    · simp only [of_oxm_wire_object_id_set, withBuf, OF_OBJECT_ABSOLUTE_OFFSET]
      rw [if_pos hvalid, hw, if_neg (not_lt.mpr h0)]
    · rw [(oxm_get_of_word ext (withBuf obj _) _ rfl).1]
      simp only [withBuf]
      rw [buf_u32_get_set_same, buf_u32_get_set_same, harith.2.2.1, hrev]
    · rw [(oxm_get_of_word ext (withBuf obj _) _ rfl).2]
      simp only [withBuf]
      rw [buf_u32_get_set_same, buf_u32_get_set_same, harith.2.2.2]

theorem claim_C4_witness :
    ∃ b1 b2, of_oxm_wire_object_id_set ext0 (mkObj 3 .OF_OXM_IN_PORT (some zeroBuf))
        .OF_OXM_IN_PORT = some b1 ∧
      of_oxm_wire_length_set (withBuf (mkObj 3 .OF_OXM_IN_PORT (some zeroBuf)) b1) 17 =
        some b2 ∧
      of_oxm_wire_object_id_get ext0 (withBuf (mkObj 3 .OF_OXM_IN_PORT (some zeroBuf)) b2) =
        some .OF_OXM_IN_PORT ∧
      of_oxm_wire_length_get (withBuf (mkObj 3 .OF_OXM_IN_PORT (some zeroBuf)) b2) =
        some ((17 : Int)).toNat :=
  (claim_C4 ext0 (mkObj 3 .OF_OXM_IN_PORT (some zeroBuf)) zeroBuf .OF_OXM_IN_PORT
    8388608 17 rfl rfl rfl (by decide) (by decide) (by decide) (by decide) (by decide)).1

/-- Claim C5: the packet-queue length field is a 16-bit field at byte offset
8 for protocol version 1.2 and later and at byte offset 4 before, with the
offset recomputed from the handle's version on each call; set-then-get
returns the value written for every 16-bit value and every version, and a
write at the other version's offset is invisible through the correct
accessor. -/
theorem claim_C5 (obj : of_object_t) (b : Buf) (n w : Nat)
    (hb : obj.wbuf = some b) (hn : n < 65536) :
    (OF_VERSION_1_2 ≤ obj.version →
      of_packet_queue_wire_length_get obj = some (buf_u16_get b (obj.obj_offset + 8))) ∧
    (obj.version < OF_VERSION_1_2 →
      of_packet_queue_wire_length_get obj = some (buf_u16_get b (obj.obj_offset + 4))) ∧
    (∃ b', of_packet_queue_wire_length_set obj n = some b' ∧
      of_packet_queue_wire_length_get (withBuf obj b') = some n) ∧
    (of_packet_queue_wire_length_get (withBuf obj
        (buf_u16_set b
          (obj.obj_offset + (if OF_VERSION_1_2 ≤ obj.version then 4 else 8)) w)) =
      of_packet_queue_wire_length_get obj) := by
  refine ⟨?_, ?_, ?_, ?_⟩
  · intro h
    simp only [of_packet_queue_wire_length_get, hb, OF_OBJECT_ABSOLUTE_OFFSET,
      OF_PACKET_QUEUE_LENGTH_OFFSET]
    rw [if_pos h]
  · intro h
    simp only [of_packet_queue_wire_length_get, hb, OF_OBJECT_ABSOLUTE_OFFSET,
      OF_PACKET_QUEUE_LENGTH_OFFSET]
    rw [if_neg (not_le.mpr h)]
  · refine ⟨buf_u16_set b (obj.obj_offset + OF_PACKET_QUEUE_LENGTH_OFFSET obj.version) n,
      ?_, ?_⟩
    · simp only [of_packet_queue_wire_length_set, hb, OF_OBJECT_ABSOLUTE_OFFSET]
    · simp only [of_packet_queue_wire_length_get, withBuf, OF_OBJECT_ABSOLUTE_OFFSET]
      rw [buf_u16_get_set_same]
      congr 1
      omega
  · simp only [of_packet_queue_wire_length_get, withBuf, hb, OF_OBJECT_ABSOLUTE_OFFSET,
      OF_PACKET_QUEUE_LENGTH_OFFSET]
    rcases le_or_lt OF_VERSION_1_2 obj.version with hv | hv
    · rw [if_pos hv, if_pos hv,
        buf_u16_get_u16_set_disjoint _ _ _ _ (by omega)]
    · rw [if_neg (not_le.mpr hv), if_neg (not_le.mpr hv),
        buf_u16_get_u16_set_disjoint _ _ _ _ (by omega)]

theorem claim_C5_witness :
    (of_packet_queue_wire_length_get (mkObj 3 .OF_ACTION_OUTPUT (some zeroBuf)) =
      some (buf_u16_get zeroBuf
        ((mkObj 3 .OF_ACTION_OUTPUT (some zeroBuf)).obj_offset + 8))) ∧
    (∃ b', of_packet_queue_wire_length_set (mkObj 3 .OF_ACTION_OUTPUT (some zeroBuf)) 17 =
        some b' ∧
      of_packet_queue_wire_length_get
        (withBuf (mkObj 3 .OF_ACTION_OUTPUT (some zeroBuf)) b') = some 17) :=
  ⟨(claim_C5 (mkObj 3 .OF_ACTION_OUTPUT (some zeroBuf)) zeroBuf 17 5 rfl
      (by decide)).1 (by decide),
    (claim_C5 (mkObj 3 .OF_ACTION_OUTPUT (some zeroBuf)) zeroBuf 17 5 rfl
      (by decide)).2.2.1⟩

/-- Claim C6: `of_list_meter_band_stats_wire_length_get` requires a non-null
parent whose identifier is Meter Stats (fatal otherwise) and returns the
parent's length minus the parent's fixed header length, without reading the
wire buffer; a parent of length 20 with fixed header length 8 yields 12. -/
theorem claim_C6 (ext : loci_ext) (obj : of_object_t) :
    (obj.parent = none → of_list_meter_band_stats_wire_length_get ext obj = none) ∧
    (∀ p, obj.parent = some p → p.object_id ≠ .OF_METER_STATS →
      of_list_meter_band_stats_wire_length_get ext obj = none) ∧
    (∀ p, obj.parent = some p → p.object_id = .OF_METER_STATS →
      of_list_meter_band_stats_wire_length_get ext obj =
        some ((p.length : Int) -
          (ext.OF_OBJECT_FIXED_LENGTH .OF_METER_STATS : Int))) ∧
    (∀ b, of_list_meter_band_stats_wire_length_get ext { obj with wbuf := b } =
      of_list_meter_band_stats_wire_length_get ext obj) := by
  refine ⟨?_, ?_, ?_, ?_⟩
  · intro h
    simp only [of_list_meter_band_stats_wire_length_get, h]
  · intro p hp hne
    simp only [of_list_meter_band_stats_wire_length_get, hp]
    rw [if_neg hne]
  · intro p hp he
    simp only [of_list_meter_band_stats_wire_length_get, hp]
    rw [if_pos he, he]
  · intro b
    simp only [of_list_meter_band_stats_wire_length_get]

theorem claim_C6_witness :
    of_list_meter_band_stats_wire_length_get ext0
      { version := 4, object_id := .OF_ACTION_OUTPUT, obj_offset := 0, length := 0,
        parent := some { object_id := .OF_METER_STATS, length := 20 },
        wbuf := some zeroBuf } = some 12 :=
  ((claim_C6 ext0
    { version := 4, object_id := .OF_ACTION_OUTPUT, obj_offset := 0, length := 0,
      parent := some { object_id := .OF_METER_STATS, length := 20 },
      wbuf := some zeroBuf }).2.2.1
    { object_id := .OF_METER_STATS, length := 20 } rfl rfl).trans (by decide)

/-- Claim C8: every family-specific identifier getter, outside its
experimenter branch, fails fatally when the wire type code is at or above
the family's item count, and fails fatally when the reverse table yields the
invalid-identifier sentinel instead of returning it (a `uint16` wire read is
never negative, so the lower bound of the range assertion is vacuous). -/
theorem claim_C8 (ext : loci_ext) (obj : of_object_t) (b : Buf) (t : Nat)
    (hb : obj.wbuf = some b)
    (ht : buf_u16_get b (obj.obj_offset + TLV16_WIRE_TYPE_OFFSET) = t) :
    (t ≠ OF_EXPERIMENTER_TYPE → ext.OF_ACTION_ITEM_COUNT ≤ t →
      of_action_wire_object_id_get ext obj = none) ∧
    (t ≠ OF_EXPERIMENTER_TYPE → t < ext.OF_ACTION_ITEM_COUNT →
      ext.of_action_type_to_id obj.version t = .OF_OBJECT_INVALID →
      of_action_wire_object_id_get ext obj = none) ∧
    (t ≠ OF_EXPERIMENTER_TYPE → ext.OF_ACTION_ID_ITEM_COUNT ≤ t →
      of_action_id_wire_object_id_get ext obj = none) ∧
    (t ≠ OF_EXPERIMENTER_TYPE → t < ext.OF_ACTION_ID_ITEM_COUNT →
      ext.of_action_id_type_to_id obj.version t = .OF_OBJECT_INVALID →
      of_action_id_wire_object_id_get ext obj = none) ∧
    (t ≠ OF_EXPERIMENTER_TYPE → ext.OF_INSTRUCTION_ITEM_COUNT ≤ t →
      of_instruction_wire_object_id_get ext obj = none) ∧
    (t ≠ OF_EXPERIMENTER_TYPE → t < ext.OF_INSTRUCTION_ITEM_COUNT →
      ext.of_instruction_type_to_id obj.version t = .OF_OBJECT_INVALID →
      of_instruction_wire_object_id_get ext obj = none) ∧
    (t ≠ OF_EXPERIMENTER_TYPE → ext.OF_QUEUE_PROP_ITEM_COUNT ≤ t →
      of_queue_prop_wire_object_id_get ext obj = none) ∧
    (t ≠ OF_EXPERIMENTER_TYPE → t < ext.OF_QUEUE_PROP_ITEM_COUNT →
      ext.of_queue_prop_type_to_id obj.version t = .OF_OBJECT_INVALID →
      of_queue_prop_wire_object_id_get ext obj = none) ∧
    (t ≠ OF_EXPERIMENTER_TYPE → ext.OF_TABLE_FEATURE_PROP_ITEM_COUNT ≤ t →
      of_table_feature_prop_wire_object_id_get ext obj = none) ∧
    (t ≠ OF_EXPERIMENTER_TYPE → t < ext.OF_TABLE_FEATURE_PROP_ITEM_COUNT →
      ext.of_table_feature_prop_type_to_id obj.version t = .OF_OBJECT_INVALID →
      of_table_feature_prop_wire_object_id_get ext obj = none) ∧
    (t ≠ OF_EXPERIMENTER_TYPE → ext.OF_METER_BAND_ITEM_COUNT ≤ t →
      of_meter_band_wire_object_id_get ext obj = none) ∧
    (t ≠ OF_EXPERIMENTER_TYPE → t < ext.OF_METER_BAND_ITEM_COUNT →
      ext.of_meter_band_type_to_id obj.version t = .OF_OBJECT_INVALID →
      of_meter_band_wire_object_id_get ext obj = none) ∧
    (ext.OF_HELLO_ELEM_ITEM_COUNT ≤ t →
      of_hello_elem_wire_object_id_get ext obj = none) ∧
    (t < ext.OF_HELLO_ELEM_ITEM_COUNT →
      ext.of_hello_elem_type_to_id obj.version t = .OF_OBJECT_INVALID →
      of_hello_elem_wire_object_id_get ext obj = none) := by
  have htg : of_tlv16_wire_type_get obj = some t := by
    simp only [of_tlv16_wire_type_get, hb, OF_OBJECT_ABSOLUTE_OFFSET, ht]
  refine ⟨?_, ?_, ?_, ?_, ?_, ?_, ?_, ?_, ?_, ?_, ?_, ?_, ?_, ?_⟩
  · intro hne hge
    simp only [of_action_wire_object_id_get, htg]
    rw [if_neg hne, if_neg (not_lt.mpr hge)]
  · intro hne hlt hinv
    simp only [of_action_wire_object_id_get, htg]
    rw [if_neg hne, if_pos hlt, if_pos hinv]
  · intro hne hge
    simp only [of_action_id_wire_object_id_get, htg]
    rw [if_neg hne, if_neg (not_lt.mpr hge)]
  · intro hne hlt hinv
    simp only [of_action_id_wire_object_id_get, htg]
    rw [if_neg hne, if_pos hlt, if_pos hinv]
  · intro hne hge
    simp only [of_instruction_wire_object_id_get, htg]
    rw [if_neg hne, if_neg (not_lt.mpr hge)]
  · intro hne hlt hinv
    simp only [of_instruction_wire_object_id_get, htg]
    rw [if_neg hne, if_pos hlt, if_pos hinv]
  · intro hne hge
    simp only [of_queue_prop_wire_object_id_get, htg]
    rw [if_neg hne, if_neg (not_lt.mpr hge)]
  · intro hne hlt hinv
    simp only [of_queue_prop_wire_object_id_get, htg]
    rw [if_neg hne, if_pos hlt, if_pos hinv]
  · intro hne hge
    simp only [of_table_feature_prop_wire_object_id_get, htg]
    rw [if_neg hne, if_neg (not_lt.mpr hge)]
  · intro hne hlt hinv
    simp only [of_table_feature_prop_wire_object_id_get, htg]
    rw [if_neg hne, if_pos hlt, if_pos hinv]
  · intro hne hge
    simp only [of_meter_band_wire_object_id_get, htg]
    rw [if_neg hne, if_neg (not_lt.mpr hge)]
  · intro hne hlt hinv
    simp only [of_meter_band_wire_object_id_get, htg]
    rw [if_neg hne, if_pos hlt, if_pos hinv]
  · intro hge
    simp only [of_hello_elem_wire_object_id_get, htg]
    rw [if_neg (not_lt.mpr hge)]
  · intro hlt hinv
    simp only [of_hello_elem_wire_object_id_get, htg]
    rw [if_pos hlt, if_pos hinv]

theorem claim_C8_witness :
    of_action_wire_object_id_get ext0 (mkObj 1 .OF_ACTION_OUTPUT (some fiveBuf)) = none ∧
    of_action_id_wire_object_id_get ext0 (mkObj 1 .OF_ACTION_OUTPUT (some fiveBuf)) = none ∧
    of_instruction_wire_object_id_get ext0 (mkObj 1 .OF_ACTION_OUTPUT (some fiveBuf)) = none ∧
    of_queue_prop_wire_object_id_get ext0 (mkObj 1 .OF_ACTION_OUTPUT (some fiveBuf)) = none ∧
    of_table_feature_prop_wire_object_id_get ext0
      (mkObj 1 .OF_ACTION_OUTPUT (some fiveBuf)) = none ∧
    of_meter_band_wire_object_id_get ext0 (mkObj 1 .OF_ACTION_OUTPUT (some fiveBuf)) = none ∧
    of_hello_elem_wire_object_id_get ext0 (mkObj 1 .OF_ACTION_OUTPUT (some fiveBuf)) = none :=
  ⟨(claim_C8 ext0 (mkObj 1 .OF_ACTION_OUTPUT (some fiveBuf)) fiveBuf 5 rfl rfl).1
      (by decide) (by decide),
    (claim_C8 ext0 (mkObj 1 .OF_ACTION_OUTPUT (some fiveBuf)) fiveBuf 5 rfl rfl).2.2.1
      (by decide) (by decide),
    (claim_C8 ext0 (mkObj 1 .OF_ACTION_OUTPUT (some fiveBuf)) fiveBuf 5 rfl rfl).2.2.2.2.1
      (by decide) (by decide),
    (claim_C8 ext0 (mkObj 1 .OF_ACTION_OUTPUT (some fiveBuf)) fiveBuf 5 rfl rfl).2.2.2.2.2.2.1
      (by decide) (by decide),
    (claim_C8 ext0 (mkObj 1 .OF_ACTION_OUTPUT (some fiveBuf)) fiveBuf 5 rfl
      rfl).2.2.2.2.2.2.2.2.1 (by decide) (by decide),
    (claim_C8 ext0 (mkObj 1 .OF_ACTION_OUTPUT (some fiveBuf)) fiveBuf 5 rfl
      rfl).2.2.2.2.2.2.2.2.2.2.1 (by decide) (by decide),
    (claim_C8 ext0 (mkObj 1 .OF_ACTION_OUTPUT (some fiveBuf)) fiveBuf 5 rfl
      rfl).2.2.2.2.2.2.2.2.2.2.2.2.1 (by decide)⟩

/-- Claim C9: `of_hello_elem_wire_object_id_get` has no experimenter special
case: on a wire type equal to the EXPERIMENTER code it still performs the
reverse lookup under the range and non-invalid assertions (fatal when the
code is outside the hello-element item count), whereas the meter-band getter
resolves the same wire type to its generic experimenter identifier. -/
theorem claim_C9 (ext : loci_ext) (obj : of_object_t) (b : Buf)
    (hb : obj.wbuf = some b)
    (ht : buf_u16_get b (obj.obj_offset + TLV16_WIRE_TYPE_OFFSET) = OF_EXPERIMENTER_TYPE) :
    of_meter_band_wire_object_id_get ext obj = some .OF_METER_BAND_EXPERIMENTER ∧
    (ext.OF_HELLO_ELEM_ITEM_COUNT ≤ OF_EXPERIMENTER_TYPE →
      of_hello_elem_wire_object_id_get ext obj = none) ∧
    (OF_EXPERIMENTER_TYPE < ext.OF_HELLO_ELEM_ITEM_COUNT →
      of_hello_elem_wire_object_id_get ext obj =
        (if ext.of_hello_elem_type_to_id obj.version OF_EXPERIMENTER_TYPE =
            .OF_OBJECT_INVALID then none
          else some (ext.of_hello_elem_type_to_id obj.version OF_EXPERIMENTER_TYPE))) := by
  have htg : of_tlv16_wire_type_get obj = some OF_EXPERIMENTER_TYPE := by
    simp only [of_tlv16_wire_type_get, hb, OF_OBJECT_ABSOLUTE_OFFSET, ht]
  refine ⟨?_, ?_, ?_⟩
  · simp only [of_meter_band_wire_object_id_get, htg]
    simp
  · intro hge
    simp only [of_hello_elem_wire_object_id_get, htg]
    rw [if_neg (not_lt.mpr hge)]
  · intro hlt
    simp only [of_hello_elem_wire_object_id_get, htg]
    rw [if_pos hlt]

theorem claim_C9_witness :
    of_meter_band_wire_object_id_get ext0 (mkObj 1 .OF_ACTION_OUTPUT (some expBuf)) =
      some .OF_METER_BAND_EXPERIMENTER ∧
    of_hello_elem_wire_object_id_get ext0 (mkObj 1 .OF_ACTION_OUTPUT (some expBuf)) = none :=
  ⟨(claim_C9 ext0 (mkObj 1 .OF_ACTION_OUTPUT (some expBuf)) expBuf rfl (by decide)).1,
    (claim_C9 ext0 (mkObj 1 .OF_ACTION_OUTPUT (some expBuf)) expBuf rfl (by decide)).2.1
      (by decide)⟩

/-- Claim C10: `of_extension_object_wire_push` returns `OF_ERROR_NONE` for
every object identifier; for the six registered vendor-extension identifiers
it writes exactly the registered vendor identifier / sub-type pair (BSN with
sub-type 1 for mirror, BSN with 2 for set-tunnel-dst, Nicira with 16-bit 18
for dec-TTL, in both variants), and for any other identifier it performs no
writes at all. -/
theorem claim_C10 (obj : of_object_t) (b : Buf) (hb : obj.wbuf = some b) :
    (∃ o, of_extension_object_wire_push obj = some (OF_ERROR_NONE, o)) ∧
    (obj.object_id ≠ .OF_ACTION_BSN_MIRROR → obj.object_id ≠ .OF_ACTION_ID_BSN_MIRROR →
      obj.object_id ≠ .OF_ACTION_BSN_SET_TUNNEL_DST →
      obj.object_id ≠ .OF_ACTION_ID_BSN_SET_TUNNEL_DST →
      obj.object_id ≠ .OF_ACTION_NICIRA_DEC_TTL →
      obj.object_id ≠ .OF_ACTION_ID_NICIRA_DEC_TTL →
      of_extension_object_wire_push obj = some (OF_ERROR_NONE, obj)) ∧
    (obj.object_id = .OF_ACTION_BSN_MIRROR ∨ obj.object_id = .OF_ACTION_ID_BSN_MIRROR →
      of_extension_object_wire_push obj = some (OF_ERROR_NONE, withBuf obj
        (buf_u32_set
          (buf_u32_set b (obj.obj_offset + OF_ACTION_EXPERIMENTER_ID_OFFSET)
            OF_EXPERIMENTER_ID_BSN)
          (obj.obj_offset + OF_ACTION_EXPERIMENTER_SUBTYPE_OFFSET) 1))) ∧
    (obj.object_id = .OF_ACTION_BSN_SET_TUNNEL_DST ∨
        obj.object_id = .OF_ACTION_ID_BSN_SET_TUNNEL_DST →
      of_extension_object_wire_push obj = some (OF_ERROR_NONE, withBuf obj
        (buf_u32_set
          (buf_u32_set b (obj.obj_offset + OF_ACTION_EXPERIMENTER_ID_OFFSET)
            OF_EXPERIMENTER_ID_BSN)
          (obj.obj_offset + OF_ACTION_EXPERIMENTER_SUBTYPE_OFFSET) 2))) ∧
    (obj.object_id = .OF_ACTION_NICIRA_DEC_TTL ∨
        obj.object_id = .OF_ACTION_ID_NICIRA_DEC_TTL →
      of_extension_object_wire_push obj = some (OF_ERROR_NONE, withBuf obj
        (buf_u16_set
          (buf_u32_set b (obj.obj_offset + OF_ACTION_EXPERIMENTER_ID_OFFSET)
            OF_EXPERIMENTER_ID_NICIRA)
          (obj.obj_offset + OF_ACTION_EXPERIMENTER_SUBTYPE_OFFSET) 18))) := by
  obtain ⟨ver, oid, off, len, par, wb⟩ := obj
  dsimp only at hb ⊢
  subst hb
  refine ⟨?_, ?_, ?_, ?_, ?_⟩
  · cases oid <;> exact ⟨_, rfl⟩
  · intro h1 h2 h3 h4 h5 h6
    cases oid <;> first | rfl | simp_all
  · intro h
    rcases h with h | h <;> (subst h; rfl)
  · intro h
    rcases h with h | h <;> (subst h; rfl)
  · intro h
    rcases h with h | h <;> (subst h; rfl)

theorem claim_C10_witness :
    of_extension_object_wire_push (mkObj 1 .OF_ACTION_BSN_MIRROR (some zeroBuf)) =
      some (OF_ERROR_NONE, withBuf (mkObj 1 .OF_ACTION_BSN_MIRROR (some zeroBuf))
        (buf_u32_set
          (buf_u32_set zeroBuf
            ((mkObj 1 .OF_ACTION_BSN_MIRROR (some zeroBuf)).obj_offset +
              OF_ACTION_EXPERIMENTER_ID_OFFSET) OF_EXPERIMENTER_ID_BSN)
          ((mkObj 1 .OF_ACTION_BSN_MIRROR (some zeroBuf)).obj_offset +
            OF_ACTION_EXPERIMENTER_SUBTYPE_OFFSET) 1)) ∧
    of_extension_object_wire_push (mkObj 1 .OF_ACTION_OUTPUT (some zeroBuf)) =
      some (OF_ERROR_NONE, mkObj 1 .OF_ACTION_OUTPUT (some zeroBuf)) :=
  ⟨(claim_C10 (mkObj 1 .OF_ACTION_BSN_MIRROR (some zeroBuf)) zeroBuf rfl).2.2.1
      (Or.inl rfl),
    (claim_C10 (mkObj 1 .OF_ACTION_OUTPUT (some zeroBuf)) zeroBuf rfl).2.1
      (by decide) (by decide) (by decide) (by decide) (by decide) (by decide)⟩
